import Mathlib

/-!
Verification development for the spew-bot client and its job pipeline.

The frontend (under client/src) is embedded shallowly: the TypeScript
union and object types become Lean inductives and structures, the fetch
helpers become pure functions of an abstract HTTP response, and the React
components' render logic becomes pure functions from props/state to an
abstract view.  JavaScript truthiness on optional strings and booleans is
modelled explicitly (`jsTruthyStr`, `jsTruthyBool`): an absent value, the
empty string and `false` are falsy.

The backend orchestrator is not part of the sources; where a property
concerns it, the definitions are modelled from the specification and say
so in their doc comments.
-/

/-- The status union of `JobDetails` in client/src/lib/api.ts:
`"pending" | "processing" | "completed" | "failed" | "error"`. -/
inductive JobStatus where
  | pending
  | processing
  | completed
  | failed
  | error
deriving DecidableEq, Repr

/-- The literal string of each `JobDetails` status value. -/
def JobStatus.toString : JobStatus → String
  | .pending => "pending"
  | .processing => "processing"
  | .completed => "completed"
  | .failed => "failed"
  | .error => "error"

/-- The eight job statuses listed in §3 of the specification. -/
def specStatuses : List String :=
  ["created", "script_generating", "speech_synthesizing", "visual_generating",
   "lipsync_processing", "assembling", "completed", "failed"]

/-- The five status strings admitted by the client-side `JobDetails` type. -/
def clientStatuses : List String :=
  ["pending", "processing", "completed", "failed", "error"]

/-- JavaScript truthiness of a nullable/optional string:
`undefined`, `null` and `""` are falsy. -/
def jsTruthyStr : Option String → Bool
  | some s => s ≠ ""
  | none => false

/-- JavaScript truthiness of an optional boolean: only `true` is truthy. -/
def jsTruthyBool : Option Bool → Bool
  | some b => b
  | none => false

/-- The whitespace characters stripped by JavaScript
`String.prototype.trim` (ASCII ones plus the common Unicode spaces). -/
def jsIsWhitespace (c : Char) : Bool :=
  c = ' ' ∨ c = '\t' ∨ c = '\n' ∨ c = '\r' ∨ c = Char.ofNat 11 ∨
    c = Char.ofNat 12 ∨ c = Char.ofNat 160 ∨ c = Char.ofNat 65279

/-- JavaScript `String.prototype.trim`: strips leading and trailing
whitespace. -/
def jsTrim (s : String) : String :=
  String.mk
    (((s.data.dropWhile jsIsWhitespace).reverse.dropWhile jsIsWhitespace).reverse)

/-- `JobUpdate` from client/src/lib/api.ts. -/
structure JobUpdate where
  id : Nat
  job_id : String
  status : String
  message : String
  created_at : String
deriving DecidableEq, Repr

/-- `JobDetails` from client/src/lib/api.ts (the `job` object of the
`/api/jobs/<job_id>` response). Optional fields are `Option`s. -/
structure JobDetails where
  job_id : String
  status : JobStatus
  created_at : String
  updated_at : Option String := none
  completed_at : Option String := none
  error : Option String := none
  result : Option String := none
  persona_id : Option String := none
  query : Option String := none
  video_available : Option Bool := none
  video_url : Option String := none
deriving DecidableEq, Repr

/-- `FetchedJobData` from client/src/lib/api.ts: the whole body fetched
from `/api/jobs/<job_id>`. -/
structure FetchedJobData where
  job : JobDetails
  updates : List JobUpdate
deriving DecidableEq, Repr

/-- An HTTP response as the fetch helpers observe it: the `ok` flag, the
numeric status, and the parsed JSON body (read only when `ok`). -/
structure HttpResponse where
  ok : Bool
  status : Nat
  json : FetchedJobData
deriving DecidableEq, Repr

/-- An HTTP request as issued by `fetch`: URL and method. -/
structure HttpRequest where
  url : String
  method : String
deriving DecidableEq, Repr

/-- `API_BASE_URL` from client/src/lib/api.ts:
`process.env.NEXT_PUBLIC_API_BASE_URL || "http://localhost:8000/api"`. -/
def apiBaseUrl (env : Option String) : String :=
  if jsTruthyStr env then env.getD "" else "http://localhost:8000/api"

/-- The request issued by `getJobStatus`: a GET of
`API_BASE_URL + "/jobs/" + jobId` (fetch with no init defaults to GET). -/
def getJobStatusRequest (env : Option String) (jobId : String) : HttpRequest :=
  { url := apiBaseUrl env ++ "/jobs/" ++ jobId, method := "GET" }

/-- The request issued by `getJobWithUpdates`: a GET of the same
`API_BASE_URL + "/jobs/" + jobId`. -/
def getJobWithUpdatesRequest (env : Option String) (jobId : String) : HttpRequest :=
  { url := apiBaseUrl env ++ "/jobs/" ++ jobId, method := "GET" }

/-- `getJobStatus` from client/src/lib/api.ts, as a function of the
response: on a non-OK response it throws
`Failed to fetch job status: <status>`; otherwise it returns the parsed
body unchanged (the catch clause only logs and rethrows). -/
def getJobStatus (resp : HttpResponse) : Except String FetchedJobData :=
  if resp.ok then Except.ok resp.json
  else Except.error ("Failed to fetch job status: " ++ toString resp.status)

/-- `getJobWithUpdates` from client/src/lib/api.ts, as a function of the
response: identical to `getJobStatus` except for the thrown message
`Failed to fetch job with updates: <status>`. -/
def getJobWithUpdates (resp : HttpResponse) : Except String FetchedJobData :=
  if resp.ok then Except.ok resp.json
  else Except.error ("Failed to fetch job with updates: " ++ toString resp.status)

/-- Whether an `Except` result is a success. -/
def exceptOk {ε α : Type} : Except ε α → Bool
  | Except.ok _ => true
  | Except.error _ => false

/-- The abstract outcome of rendering the `JobResult` component: which of
its mutually exclusive top-level views is produced.  `completedView`
carries the video source actually given to the `<video>` element
(`none` means the "Video is not available" placeholder is rendered
instead) and the optional explanation text. -/
inductive View where
  | loadingView
  | contextErrorView (msg : String)
  | nullView
  | failedView (reason : String) (jobId : String)
  | completedView (videoSrc : Option String) (resultText : Option String)
  | processingView (status : JobStatus)
deriving DecidableEq, Repr

/-- The video source computed for a completed job in
client/src/components/job-result.tsx:
`absoluteVideoUrl = video_url ? "http://127.0.0.1:8000" + video_url : null`,
and the player renders only when `video_available && absoluteVideoUrl`
is truthy. -/
def completedVideoSrc (d : JobDetails) : Option String :=
  let absoluteVideoUrl : Option String :=
    if jsTruthyStr d.video_url then some ("http://127.0.0.1:8000" ++ d.video_url.getD "")
    else none
  if jsTruthyBool d.video_available ∧ absoluteVideoUrl ≠ none then absoluteVideoUrl
  else none

/-- The failure reason displayed for a failed job:
`jobDetails.error || "Unknown error occurred"` (JS `||`, so an absent or
empty `error` falls back). -/
def failedReason (e : Option String) : String :=
  if jsTruthyStr e then e.getD "" else "Unknown error occurred"

/-- `JobResult` from client/src/components/job-result.tsx as a pure
function of the context state `(loading, error, jobData)`, following the
component's branch order: initial loading, context error, missing job,
failed/error status, completed status, pending/processing status. -/
def renderJobResult (loading : Bool) (ctxError : Option String)
    (jobData : Option FetchedJobData) : View :=
  match jobData with
  | none =>
      if loading ∧ ¬ jsTruthyStr ctxError then View.loadingView
      else if jsTruthyStr ctxError then View.contextErrorView (ctxError.getD "")
      else View.nullView
  | some fd =>
      let d := fd.job
      if d.status = JobStatus.failed ∨ d.status = JobStatus.error then
        View.failedView (failedReason d.error) d.job_id
      else if d.status = JobStatus.completed then
        View.completedView (completedVideoSrc d) d.result
      else
        View.processingView d.status

/-- Whether a rendered view contains a `<video>` element. -/
def viewHasVideo : View → Bool
  | View.completedView (some _) _ => true
  | _ => false

/-- `scheduleFetch` from client/src/app/results/[jobId]/page.tsx as the
decision it makes: given the unmounted flag, the route's jobId and the
currently known status (`none` when no job data), it either arms a
timer with its delay in milliseconds, or arms nothing.  The guard is
`!isUnmounted && jobId && (!status || (status !== "completed" &&
status !== "failed" && status !== "error"))` and the delay is 5000. -/
def scheduleFetch (isUnmounted : Bool) (jobId : String)
    (status : Option JobStatus) : Option Nat :=
  if ¬ isUnmounted ∧ jobId ≠ "" ∧
      (status = none ∨
        (status ≠ some JobStatus.completed ∧ status ≠ some JobStatus.failed ∧
         status ≠ some JobStatus.error)) then
    some 5000
  else none

/-- The continuation run when a polling fetch settles, from the same
page: `.then(() => scheduleFetch())` on success and
`.catch((err) => ... scheduleFetch())` on failure — both branches call
`scheduleFetch` again. -/
def onFetchSettled (succeeded : Bool) (isUnmounted : Bool) (jobId : String)
    (status : Option JobStatus) : Option Nat :=
  match succeeded with
  | true => scheduleFetch isUnmounted jobId status
  | false => scheduleFetch isUnmounted jobId status

/-- A persona/celebrity as the submission page holds it (from
client/src/lib/api.ts `Celebrity`). -/
structure Celebrity where
  id : String
  name : String
  image : String
deriving DecidableEq, Repr

/-- The body of the job-creation POST built by `createJob`:
`JSON.stringify(\x7b query, persona: personaId \x7d)`. -/
structure JobRequest where
  query : String
  persona : String
deriving DecidableEq, Repr

/-- `handleGenerate` from the submission page: it returns early —
issuing no job-creation request — unless a celebrity is selected, the
trimmed topic is non-empty and no submission is in flight; otherwise it
calls `createNewJob(topic.trim(), selectedCelebrity.id)`, which POSTs
the returned request.  `none` means no request was issued. -/
def handleGenerate (selectedCelebrity : Option Celebrity) (topic : String)
    (isSubmitting : Bool) : Option JobRequest :=
  match selectedCelebrity with
  | none => none
  | some c =>
      if jsTrim topic = "" ∨ isSubmitting then none
      else some { query := jsTrim topic, persona := c.id }

/-- The outcome of one `fetchJobById` call: the value it resolves to (or
the error it rethrows), and whether it issued a network request. -/
structure FetchOutcome where
  result : Except String FetchedJobData
  requested : Bool
deriving Repr

/-- The placeholder data the in-flight guard of `fetchJobById` resolves
with when no job data is cached. -/
def pendingPlaceholder (jobId : String) (nowIso : String) : FetchedJobData :=
  { job := { job_id := jobId, status := JobStatus.pending, created_at := nowIso },
    updates := [] }

/-- `fetchJobById` from client/src/lib/job-context.tsx as a function of
the provider state: the `isFetching` flag for this jobId, the recorded
`lastFetchTime` for it (0 when absent), the current time, the cached
`jobData`, and the network result `net` that `getJobStatus` would
produce.  Branches in source order: the in-flight guard resolves with
the cached data (or a pending placeholder) without fetching; the
3-second cache guard resolves with the cached data without fetching
when it is for this jobId; otherwise the network is hit and its result
returned (errors are rethrown). -/
def fetchJobById (isFetching : Bool) (lastFetch now : Nat) (nowIso : String)
    (jobData : Option FetchedJobData) (jobId : String)
    (net : Except String FetchedJobData) : FetchOutcome :=
  if isFetching then
    { result := Except.ok (jobData.getD (pendingPlaceholder jobId nowIso)),
      requested := false }
  else
    match jobData with
    | some d =>
        if now - lastFetch < 3000 ∧ d.job.job_id = jobId then
          { result := Except.ok d, requested := false }
        else { result := net, requested := true }
    | none => { result := net, requested := true }

/-- Modelled from the spec: the backend orchestrator and pipeline graph
are not in the repository sources (only the client is); §4.2 fixes the
five pipeline stages. -/
inductive Stage where
  | script
  | speech
  | visual
  | lipsync
  | assembly
deriving DecidableEq, Repr

/-- Modelled from the spec: the in-progress job status recorded for each
stage (§3 / §4.4). -/
def Stage.inProgressStatus : Stage → String
  | .script => "script_generating"
  | .speech => "speech_synthesizing"
  | .visual => "visual_generating"
  | .lipsync => "lipsync_processing"
  | .assembly => "assembling"

/-- Modelled from the spec: the Pipeline Graph of §4.2 —
`speech_synthesis` and `visual_generation` depend on `script_generation`,
`lipsync_processing` on both, `video_assembly` on `lipsync_processing`. -/
def Stage.deps : Stage → List Stage
  | .script => []
  | .speech => [.script]
  | .visual => [.script]
  | .lipsync => [.speech, .visual]
  | .assembly => [.lipsync]

/-- Modelled from the spec: the JobUpdate entries the orchestrator
appends on every stage transition (§3, §4.4) — a stage's start, its
successful completion, or its failure. -/
inductive Event where
  | started (s : Stage)
  | succeeded (s : Stage)
  | stageFailed (s : Stage)
deriving DecidableEq, Repr

/-- Modelled from the spec: one orchestrator job state — the stages
launched so far, the `completedSet` of §4.4, whether the job has been
finalized as failed, and the update log (newest entry first). -/
structure OrchState where
  launched : List Stage
  completedSet : List Stage
  jobFailed : Bool
  log : List Event
deriving DecidableEq, Repr

/-- Modelled from the spec: the initial orchestrator state of §4.4 step 1
(`completedSet = \x7b\x7d`, nothing launched, empty log). -/
def OrchState.init : OrchState :=
  { launched := [], completedSet := [], jobFailed := false, log := [] }

/-- Modelled from the spec: the scheduling choices an execution makes —
launching a ready stage, or observing a launched stage succeed or fail. -/
inductive Cmd where
  | start (s : Stage)
  | succeed (s : Stage)
  | fail (s : Stage)
deriving DecidableEq, Repr

/-- Modelled from the spec: one orchestrator step (§4.4).  A stage is
launched only if the job is not failed, it was not launched before, and
all its Pipeline Graph dependencies are in `completedSet` (the
`ReadyStages` guard); launching records the stage's in-progress update.
A launched stage may succeed (entering `completedSet`, with a success
update) or fail (finalizing the job as failed, after which no further
stage is launched).  A choice whose guard fails leaves the state
unchanged. -/
def OrchState.step (σ : OrchState) (c : Cmd) : OrchState :=
  match c with
  | Cmd.start s =>
      if ¬ σ.jobFailed ∧ s ∉ σ.launched ∧ ∀ d ∈ s.deps, d ∈ σ.completedSet then
        { σ with launched := s :: σ.launched, log := Event.started s :: σ.log }
      else σ
  | Cmd.succeed s =>
      if ¬ σ.jobFailed ∧ s ∈ σ.launched ∧ s ∉ σ.completedSet then
        { σ with completedSet := s :: σ.completedSet,
                 log := Event.succeeded s :: σ.log }
      else σ
  | Cmd.fail s =>
      if ¬ σ.jobFailed ∧ s ∈ σ.launched then
        { σ with jobFailed := true, log := Event.stageFailed s :: σ.log }
      else σ

/-- Modelled from the spec: a whole execution is the fold of the step
function over an arbitrary schedule of choices, from the initial state. -/
def orchRun (cmds : List Cmd) : OrchState :=
  cmds.foldl OrchState.step OrchState.init

lemma jsTruthyBool_eq_true_iff (b : Option Bool) :
    jsTruthyBool b = true ↔ b = some true := by
  cases b <;> simp [jsTruthyBool]

lemma completedVideoSrc_spec (d : JobDetails) :
    completedVideoSrc d =
      (if jsTruthyBool d.video_available = true ∧ jsTruthyStr d.video_url = true
       then some ("http://127.0.0.1:8000" ++ d.video_url.getD "") else none) := by
  unfold completedVideoSrc
  by_cases hurl : jsTruthyStr d.video_url = true <;>
    by_cases hva : jsTruthyBool d.video_available = true <;>
      simp [hurl, hva]

/-- C1 counterexample: `pending` is a status value admitted by the
client-side `JobDetails` type, yet it lies outside the eight-value
status set of §3 — so not every client-exposed snapshot status is in
that set. -/
theorem c1_pending_outside_spec_statuses :
    JobStatus.toString JobStatus.pending ∉ specStatuses := by decide

/-- C1 (amended): every status value a client-side job snapshot can
carry is one of the five values `pending, processing, completed,
failed, error` declared by the `JobDetails` type. -/
theorem c1_client_status_set (s : JobStatus) :
    JobStatus.toString s ∈ clientStatuses := by
  cases s <;> decide

/-- C2 counterexample: for a failed snapshot whose `error` is the
non-null empty string, the view shows the fixed fallback text, not the
job's `error` string — the claim's "fallback only when `error` is null"
fails. -/
theorem c2_empty_error_fallback_counterexample :
    renderJobResult false none
        (some { job := { job_id := "job-1", status := JobStatus.failed,
                         created_at := "t0", error := some "" },
                updates := [] }) =
      View.failedView "Unknown error occurred" "job-1" ∧
    ("" : String) ≠ "Unknown error occurred" := by decide

/-- C2 (amended): for every job snapshot whose status is `failed`, the
result view is the failure view showing the job's `error` string — or
the fixed fallback text `Unknown error occurred` when `error` is null
or empty — and it contains no video element. -/
theorem c2_failed_view (loading : Bool) (ctxError : Option String)
    (fd : FetchedJobData) (h : fd.job.status = JobStatus.failed) :
    renderJobResult loading ctxError (some fd) =
      View.failedView
        (match fd.job.error with
         | some s => if s = "" then "Unknown error occurred" else s
         | none => "Unknown error occurred")
        fd.job.job_id ∧
    viewHasVideo (renderJobResult loading ctxError (some fd)) = false := by
  have hr : renderJobResult loading ctxError (some fd) =
      View.failedView (failedReason fd.job.error) fd.job.job_id := by
    simp [renderJobResult, h]
  have hreason : failedReason fd.job.error =
      (match fd.job.error with
       | some s => if s = "" then "Unknown error occurred" else s
       | none => "Unknown error occurred") := by
    rcases he : fd.job.error with _ | s
    · simp [failedReason, jsTruthyStr]
    · by_cases hs : s = "" <;> simp [failedReason, jsTruthyStr, hs]
  refine ⟨by rw [hr, hreason], ?_⟩
  rw [hr]
  rfl

/-- C2 witness: a concrete failed snapshot with a non-empty error
message renders the failure view with that message and no video. -/
theorem c2_failed_view_witness :
    renderJobResult true none
        (some { job := { job_id := "job-2", status := JobStatus.failed,
                         created_at := "t0",
                         error := some "speech stage failed" },
                updates := [] }) =
      View.failedView "speech stage failed" "job-2" ∧
    viewHasVideo (renderJobResult true none
        (some { job := { job_id := "job-2", status := JobStatus.failed,
                         created_at := "t0",
                         error := some "speech stage failed" },
                updates := [] })) = false := by
  have h := c2_failed_view true none
      { job := { job_id := "job-2", status := JobStatus.failed,
                 created_at := "t0", error := some "speech stage failed" },
        updates := [] } rfl
  exact ⟨h.1.trans (by decide), h.2⟩

/-- C3: a submission attempt with an empty or whitespace-only topic, or
with no celebrity selected, issues no job-creation request. -/
theorem c3_invalid_submission_blocked (selectedCelebrity : Option Celebrity)
    (topic : String) (isSubmitting : Bool)
    (h : jsTrim topic = "" ∨ selectedCelebrity = none) :
    handleGenerate selectedCelebrity topic isSubmitting = none := by
  cases selectedCelebrity with
  | none => rfl
  | some c =>
      rcases h with h | h
      · simp [handleGenerate, h]
      · exact absurd h (by simp)

/-- C3 witness: with a celebrity selected but a whitespace-only topic,
no request is issued; likewise with no celebrity selected. -/
theorem c3_invalid_submission_blocked_witness :
    handleGenerate (some { id := "p1", name := "Persona One", image := "p1.png" })
        "   " false = none ∧
    handleGenerate none "explain gravity" false = none :=
  ⟨c3_invalid_submission_blocked
      (some { id := "p1", name := "Persona One", image := "p1.png" }) "   " false
      (Or.inl (by decide)),
   c3_invalid_submission_blocked none "explain gravity" false (Or.inr rfl)⟩

/-- C4 counterexample: the status `error` is neither `completed` nor
`failed`, yet a mounted page with a jobId schedules no re-fetch for it —
the code treats `error` as terminal too. -/
theorem c4_error_status_counterexample :
    (JobStatus.error ≠ JobStatus.completed ∧ JobStatus.error ≠ JobStatus.failed) ∧
    scheduleFetch false "job-3" (some JobStatus.error) = none := by decide

/-- C4 (amended): whenever a polling fetch settles — successfully or
not — a re-fetch is armed with a 5000 ms delay exactly when the page is
still mounted, the route has a jobId, and the known status is not one
of the code's terminal statuses `completed`, `failed`, `error` (an
unknown status also re-arms); once one of those three statuses is
observed, nothing further is scheduled. -/
theorem c4_polling_schedule (succeeded isUnmounted : Bool) (jobId : String)
    (status : Option JobStatus) :
    onFetchSettled succeeded isUnmounted jobId status =
      (if isUnmounted = false ∧ jobId ≠ "" ∧
          status ≠ some JobStatus.completed ∧ status ≠ some JobStatus.failed ∧
          status ≠ some JobStatus.error
       then some 5000 else none) := by
  by_cases hj : jobId = "" <;>
    cases succeeded <;> cases isUnmounted <;>
      rcases status with _ | s <;>
        simp [onFetchSettled, scheduleFetch, hj]

/-- C5: `getJobStatus` raises on every non-OK response and, on an OK
response, returns the parsed body: the job snapshot paired with its
full update list. -/
theorem c5_getJobStatus_spec (resp : HttpResponse) :
    (resp.ok = false →
      getJobStatus resp =
        Except.error ("Failed to fetch job status: " ++ toString resp.status)) ∧
    (resp.ok = true →
      getJobStatus resp =
        Except.ok { job := resp.json.job, updates := resp.json.updates }) := by
  constructor <;> intro h <;> simp [getJobStatus, h]

/-- C5 witness: a concrete 404 response raises, a concrete 200 response
returns its body. -/
theorem c5_getJobStatus_spec_witness :
    getJobStatus { ok := false, status := 404,
                   json := { job := { job_id := "job-5",
                                      status := JobStatus.pending,
                                      created_at := "t0" }, updates := [] } } =
      Except.error ("Failed to fetch job status: " ++ toString (404 : Nat)) ∧
    getJobStatus { ok := true, status := 200,
                   json := { job := { job_id := "job-5",
                                      status := JobStatus.pending,
                                      created_at := "t0" }, updates := [] } } =
      Except.ok { job := { job_id := "job-5", status := JobStatus.pending,
                           created_at := "t0" }, updates := [] } :=
  ⟨(c5_getJobStatus_spec _).1 rfl, (c5_getJobStatus_spec _).2 rfl⟩

/-- C8 counterexample: a completed snapshot with `video_available` true
and the non-null empty-string `video_url` renders the placeholder, not
a video player — "non-null" is not the condition the code tests. -/
theorem c8_empty_video_url_counterexample :
    renderJobResult false none
        (some { job := { job_id := "job-4", status := JobStatus.completed,
                         created_at := "t0", video_available := some true,
                         video_url := some "" },
                updates := [] }) =
      View.completedView none none ∧
    (some "" : Option String) ≠ (none : Option String) := by decide

/-- C8 (amended): a completed snapshot renders the completed view, whose
video player is present exactly when `video_available` is `true` and
`video_url` is non-null and non-empty; otherwise the video slot is
empty and the "video not available" placeholder shows. -/
theorem c8_completed_video_iff (loading : Bool) (ctxError : Option String)
    (fd : FetchedJobData) (h : fd.job.status = JobStatus.completed) :
    renderJobResult loading ctxError (some fd) =
      View.completedView (completedVideoSrc fd.job) fd.job.result ∧
    (viewHasVideo (renderJobResult loading ctxError (some fd)) = true ↔
      fd.job.video_available = some true ∧ jsTruthyStr fd.job.video_url = true) := by
  have hr : renderJobResult loading ctxError (some fd) =
      View.completedView (completedVideoSrc fd.job) fd.job.result := by
    simp [renderJobResult, h]
  refine ⟨hr, ?_⟩
  rw [hr, completedVideoSrc_spec]
  by_cases hva : jsTruthyBool fd.job.video_available = true <;>
    by_cases hurl : jsTruthyStr fd.job.video_url = true <;>
      simp [hva, hurl, viewHasVideo, (jsTruthyBool_eq_true_iff _).symm]

/-- C8 witness: a concrete completed snapshot with an available video
renders a player pointed at the absolute URL. -/
theorem c8_completed_video_iff_witness :
    renderJobResult false none
        (some { job := { job_id := "job-8", status := JobStatus.completed,
                         created_at := "t0", result := some "script text",
                         video_available := some true,
                         video_url := some "/videos/v1.mp4" },
                updates := [] }) =
      View.completedView (some "http://127.0.0.1:8000/videos/v1.mp4")
        (some "script text") ∧
    viewHasVideo (renderJobResult false none
        (some { job := { job_id := "job-8", status := JobStatus.completed,
                         created_at := "t0", result := some "script text",
                         video_available := some true,
                         video_url := some "/videos/v1.mp4" },
                updates := [] })) = true := by
  have h := c8_completed_video_iff false none
      { job := { job_id := "job-8", status := JobStatus.completed,
                 created_at := "t0", result := some "script text",
                 video_available := some true,
                 video_url := some "/videos/v1.mp4" },
        updates := [] } rfl
  exact ⟨h.1.trans (by decide), h.2.mpr (by decide)⟩

/-- C9: within the 3-second window, a repeated `fetchJobById` for the
same jobId whose cached data is for that jobId resolves with the cached
data and issues no network request, whatever the network would have
answered and whether or not a fetch is already in flight. -/
theorem c9_cache_hit (isFetching : Bool) (lastFetch now : Nat) (nowIso : String)
    (d : FetchedJobData) (jobId : String) (net : Except String FetchedJobData)
    (h1 : now - lastFetch < 3000) (h2 : d.job.job_id = jobId) :
    fetchJobById isFetching lastFetch now nowIso (some d) jobId net =
      { result := Except.ok d, requested := false } := by
  cases isFetching <;> simp [fetchJobById, h1, h2]

/-- C9 witness: a concrete repeat call 1 second after the previous one
returns the cached data and does not hit the (failing) network. -/
theorem c9_cache_hit_witness :
    fetchJobById false 1000 2000 "t1"
        (some { job := { job_id := "job-9", status := JobStatus.processing,
                         created_at := "t0" }, updates := [] })
        "job-9" (Except.error "network down") =
      { result := Except.ok { job := { job_id := "job-9",
                                       status := JobStatus.processing,
                                       created_at := "t0" }, updates := [] },
        requested := false } :=
  c9_cache_hit false 1000 2000 "t1"
    { job := { job_id := "job-9", status := JobStatus.processing,
               created_at := "t0" }, updates := [] }
    "job-9" (Except.error "network down") (by decide) rfl

/-- C10: `getJobWithUpdates` and `getJobStatus` issue the identical GET
request, return the identical value on every OK response, and on a
non-OK response both raise, differing only in the message text. -/
theorem c10_job_fetchers_agree (env : Option String) (jobId : String)
    (resp : HttpResponse) :
    getJobWithUpdatesRequest env jobId = getJobStatusRequest env jobId ∧
    (resp.ok = true → getJobWithUpdates resp = getJobStatus resp) ∧
    (resp.ok = false →
      getJobWithUpdates resp =
        Except.error ("Failed to fetch job with updates: " ++ toString resp.status) ∧
      getJobStatus resp =
        Except.error ("Failed to fetch job status: " ++ toString resp.status)) := by
  refine ⟨rfl, ?_, ?_⟩ <;> intro h <;>
    simp [getJobWithUpdates, getJobStatus, h]

/-- C10 witness: concrete agreement on the request and on a 200
response, and concrete distinct errors on a 500 response. -/
theorem c10_job_fetchers_agree_witness :
    getJobWithUpdatesRequest none "job-10" = getJobStatusRequest none "job-10" ∧
    getJobWithUpdates { ok := true, status := 200,
                        json := { job := { job_id := "job-10",
                                           status := JobStatus.completed,
                                           created_at := "t0" },
                                  updates := [] } } =
      getJobStatus { ok := true, status := 200,
                     json := { job := { job_id := "job-10",
                                        status := JobStatus.completed,
                                        created_at := "t0" },
                               updates := [] } } :=
  ⟨(c10_job_fetchers_agree none "job-10"
      { ok := true, status := 200,
        json := { job := { job_id := "job-10", status := JobStatus.completed,
                           created_at := "t0" }, updates := [] } }).1,
   (c10_job_fetchers_agree none "job-10"
      { ok := true, status := 200,
        json := { job := { job_id := "job-10", status := JobStatus.completed,
                           created_at := "t0" }, updates := [] } }).2.1 rfl⟩

/-- Every stage in `completedSet` has a success update in the log. -/
def SucceededLogged (σ : OrchState) : Prop :=
  ∀ d ∈ σ.completedSet, Event.succeeded d ∈ σ.log

/-- In a newest-first log, every start update is preceded (further down
the list, i.e. earlier in time) by success updates for all of the
stage's dependencies. -/
def DepsBeforeRev (log : List Event) : Prop :=
  ∀ l₁ s l₂, log = l₁ ++ Event.started s :: l₂ →
    ∀ d ∈ Stage.deps s, Event.succeeded d ∈ l₂

lemma depsBeforeRev_nil : DepsBeforeRev [] := by
  intro l₁ s l₂ h
  exact absurd h (by simp)

lemma depsBeforeRev_cons_started (log : List Event) (s : Stage)
    (hlog : DepsBeforeRev log)
    (hdeps : ∀ d ∈ Stage.deps s, Event.succeeded d ∈ log) :
    DepsBeforeRev (Event.started s :: log) := by
  intro l₁ s' l₂ h
  cases l₁ with
  | nil =>
      simp only [List.nil_append] at h
      obtain ⟨h1, h2⟩ := List.cons.injEq _ _ _ _ ▸ h
      cases h1
      exact h2 ▸ hdeps
  | cons e l₁ =>
      simp only [List.cons_append, List.cons.injEq] at h
      exact hlog l₁ s' l₂ h.2

lemma depsBeforeRev_cons_other (log : List Event) (e : Event)
    (hlog : DepsBeforeRev log)
    (he : ∀ s : Stage, e ≠ Event.started s) :
    DepsBeforeRev (e :: log) := by
  intro l₁ s' l₂ h
  cases l₁ with
  | nil =>
      simp only [List.nil_append, List.cons.injEq] at h
      exact absurd h.1 (he s')
  | cons e' l₁ =>
      simp only [List.cons_append, List.cons.injEq] at h
      exact hlog l₁ s' l₂ h.2

/-- The two log invariants are preserved by every orchestrator step. -/
lemma orch_step_inv (σ : OrchState) (c : Cmd)
    (h1 : SucceededLogged σ) (h2 : DepsBeforeRev σ.log) :
    SucceededLogged (σ.step c) ∧ DepsBeforeRev (σ.step c).log := by
  cases c with
  | start s =>
      by_cases hg : ¬ σ.jobFailed ∧ s ∉ σ.launched ∧
          ∀ d ∈ Stage.deps s, d ∈ σ.completedSet
      · constructor
        · intro d hd
          simp only [OrchState.step, if_pos hg] at hd ⊢
          exact List.mem_cons_of_mem _ (h1 d hd)
        · simp only [OrchState.step, if_pos hg]
          exact depsBeforeRev_cons_started σ.log s h2
            (fun d hd => h1 d (hg.2.2 d hd))
      · simpa only [OrchState.step, if_neg hg] using ⟨h1, h2⟩
  | succeed s =>
      by_cases hg : ¬ σ.jobFailed ∧ s ∈ σ.launched ∧ s ∉ σ.completedSet
      · constructor
        · intro d hd
          simp only [OrchState.step, if_pos hg] at hd ⊢
          rcases List.mem_cons.mp hd with h | h
          · exact h ▸ List.mem_cons_self _ _
          · exact List.mem_cons_of_mem _ (h1 d h)
        · simp only [OrchState.step, if_pos hg]
          exact depsBeforeRev_cons_other σ.log (Event.succeeded s) h2
            (fun s' => by simp)
      · simpa only [OrchState.step, if_neg hg] using ⟨h1, h2⟩
  | fail s =>
      by_cases hg : ¬ σ.jobFailed ∧ s ∈ σ.launched
      · constructor
        · intro d hd
          simp only [OrchState.step, if_pos hg] at hd ⊢
          exact List.mem_cons_of_mem _ (h1 d hd)
        · simp only [OrchState.step, if_pos hg]
          exact depsBeforeRev_cons_other σ.log (Event.stageFailed s) h2
            (fun s' => by simp)
      · simpa only [OrchState.step, if_neg hg] using ⟨h1, h2⟩

/-- The two log invariants hold after folding any schedule from any
state satisfying them. -/
lemma orch_foldl_inv (cmds : List Cmd) (σ : OrchState)
    (h1 : SucceededLogged σ) (h2 : DepsBeforeRev σ.log) :
    SucceededLogged (cmds.foldl OrchState.step σ) ∧
      DepsBeforeRev (cmds.foldl OrchState.step σ).log := by
  induction cmds generalizing σ with
  | nil => exact ⟨h1, h2⟩
  | cons c cs ih =>
      have h := orch_step_inv σ c h1 h2
      exact ih (σ.step c) h.1 h.2

/-- C6: in every orchestrator execution, a `lipsync_processing` start
update is preceded in the chronological update log by successful
completion updates of both `speech_synthesis` and `visual_generation`. -/
theorem c6_fork_join (cmds : List Cmd) (pre post : List Event)
    (h : (orchRun cmds).log.reverse =
      pre ++ Event.started Stage.lipsync :: post) :
    Event.succeeded Stage.speech ∈ pre ∧
      Event.succeeded Stage.visual ∈ pre := by
  have hinv := orch_foldl_inv cmds OrchState.init
    (by intro d hd; exact absurd hd (by simp [OrchState.init]))
    (by simpa [OrchState.init] using depsBeforeRev_nil)
  have hlog : (orchRun cmds).log =
      post.reverse ++ Event.started Stage.lipsync :: pre.reverse := by
    have h' := congrArg List.reverse h
    simpa [List.reverse_append] using h'
  have hd := hinv.2 post.reverse Stage.lipsync pre.reverse hlog
  exact ⟨List.mem_reverse.mp (hd Stage.speech (by simp [Stage.deps])),
         List.mem_reverse.mp (hd Stage.visual (by simp [Stage.deps]))⟩

/-- C6 witness: a concrete successful schedule — script, then the
concurrent pair, then lipsync — whose log decomposes around the lipsync
start with both success updates in the earlier part. -/
theorem c6_fork_join_witness :
    Event.succeeded Stage.speech ∈
      [Event.started Stage.script, Event.succeeded Stage.script,
       Event.started Stage.speech, Event.started Stage.visual,
       Event.succeeded Stage.speech, Event.succeeded Stage.visual] ∧
    Event.succeeded Stage.visual ∈
      [Event.started Stage.script, Event.succeeded Stage.script,
       Event.started Stage.speech, Event.started Stage.visual,
       Event.succeeded Stage.speech, Event.succeeded Stage.visual] :=
  c6_fork_join
    [Cmd.start Stage.script, Cmd.succeed Stage.script,
     Cmd.start Stage.speech, Cmd.start Stage.visual,
     Cmd.succeed Stage.speech, Cmd.succeed Stage.visual,
     Cmd.start Stage.lipsync]
    [Event.started Stage.script, Event.succeeded Stage.script,
     Event.started Stage.speech, Event.started Stage.visual,
     Event.succeeded Stage.speech, Event.succeeded Stage.visual]
    [] (by decide)
